import Mathlib

/-!
Verification of the clinical-trials analytics pipeline
(`create_sample_data.py`, `descriptive_analytics.py`,
`predictive_analytics.py`) against its natural-language specification.

The Python code is shallowly embedded: every `np.random.*` draw becomes an
explicit argument (either a single key `k : ℕ` or a draw stream
`rng : ℕ → ℕ`), and the embedding maps the key onto the exact support of
the library call wherever a claim depends on that support
(`np.random.randint(lo, hi)` has support `[lo, hi)`,
`np.random.uniform(lo, hi)` has support `[lo, hi)`).  Machine floats are
modelled by `ℚ`; dates are modelled by `ℤ` day numbers (one unit = one
day); nullable columns are modelled by `Option`.
-/

/-! ### Models of Python / numpy primitives -/

/-- Python `int(x)`: truncation toward zero. -/
def pyInt (x : ℚ) : ℤ := if 0 ≤ x then ⌊x⌋ else ⌈x⌉

/-- Python banker's rounding `round(x)`: nearest integer, ties to even. -/
def pyRound (x : ℚ) : ℤ :=
  let f := ⌊x⌋
  if x - f < 1/2 then f
  else if 1/2 < x - f then f + 1
  else if f % 2 = 0 then f else f + 1

/-- Python `round(x, 1)`: round to one decimal place (ties to even). -/
def pyRoundTo1 (x : ℚ) : ℚ := (pyRound (10 * x) : ℚ) / 10

/-- `np.random.randint(lo, hi)`: the draw key `k` is mapped onto the exact
support `[lo, hi)` of the call. -/
def pyRandint (lo hi k : ℕ) : ℕ := lo + k % (hi - lo)

/-- `np.random.uniform(lo, hi)`: the draw key `k` is mapped into the
support `[lo, hi)` (a dense rational sub-grid of it). -/
def uniformQ (lo hi : ℚ) (k : ℕ) : ℚ := lo + (hi - lo) * (k % 1000 : ℕ) / 1000

/-- `np.random.choice(xs)`: the draw key selects one element of `xs`. -/
def choiceD (xs : List String) (k : ℕ) : String := xs.getD (k % xs.length) ""

/-- `np.clip(x, lo, hi)` on a single integer. -/
def clipZ (lo hi x : ℤ) : ℤ := max lo (min hi x)

/-- `str(n).zfill(w)`: decimal rendering left-padded with zeros to width `w`. -/
def zfill (w n : ℕ) : String :=
  let s := toString n
  String.mk (List.replicate (w - s.length) '0') ++ s

/-! ### Lab results generator (`create_sample_data.generate_lab_results`) -/

/-- The nine lab tests of `generate_lab_results`. -/
inductive LabTest : Type
  | hemoglobin | wbcCount | plateletCount | alt | ast
  | creatinine | glucose | potassium | sodium
deriving DecidableEq

/-- `test_name` strings, from the `lab_tests` list. -/
def labTestName : LabTest → String
  | .hemoglobin => "Hemoglobin"
  | .wbcCount => "White Blood Cell Count"
  | .plateletCount => "Platelet Count"
  | .alt => "ALT"
  | .ast => "AST"
  | .creatinine => "Creatinine"
  | .glucose => "Glucose"
  | .potassium => "Potassium"
  | .sodium => "Sodium"

/-- Lower bound of the `reference_ranges` table. -/
def refLow : LabTest → ℚ
  | .hemoglobin => 12
  | .wbcCount => 4
  | .plateletCount => 150
  | .alt => 7
  | .ast => 8
  | .creatinine => 6/10
  | .glucose => 70
  | .potassium => 7/2
  | .sodium => 135

/-- Upper bound of the `reference_ranges` table. -/
def refHigh : LabTest → ℚ
  | .hemoglobin => 17
  | .wbcCount => 11
  | .plateletCount => 450
  | .alt => 55
  | .ast => 48
  | .creatinine => 12/10
  | .glucose => 100
  | .potassium => 5
  | .sodium => 145

/-- The `units` table. -/
def labUnit : LabTest → String
  | .hemoglobin => "g/dL"
  | .wbcCount => "10^9/L"
  | .plateletCount => "10^9/L"
  | .alt => "U/L"
  | .ast => "U/L"
  | .creatinine => "mg/dL"
  | .glucose => "mg/dL"
  | .potassium => "mmol/L"
  | .sodium => "mmol/L"

/-- The test-specific rounding applied to a drawn lab value (`round(value, 1)`
for the first group, `round(value)` for the second). -/
def applyLabRounding (t : LabTest) (v : ℚ) : ℚ :=
  if t = .hemoglobin ∨ t = .wbcCount ∨ t = .creatinine ∨ t = .potassium then
    pyRoundTo1 v
  else if t = .glucose ∨ t = .sodium ∨ t = .alt ∨ t = .ast ∨ t = .plateletCount then
    (pyRound v : ℚ)
  else v

/-- One row of the lab-results table. -/
structure LabRecord where
  patient_id : String
  site_id : String
  visit_date : ℤ
  test_name : String
  result_value : ℚ
  unit : String
  reference_low : ℚ
  reference_high : ℚ
  normal_flag : String
deriving DecidableEq

/-- The per-test body of `generate_lab_results`: round the drawn value `raw`
per the test, then set `normal_flag` from the rounded value against the
reference range (both boundaries inclusive). -/
def genLabRecord (pid sid : String) (visit : ℤ) (t : LabTest) (raw : ℚ) :
    LabRecord :=
  let v := applyLabRounding t raw
  { patient_id := pid
    site_id := sid
    visit_date := visit
    test_name := labTestName t
    result_value := v
    unit := labUnit t
    reference_low := refLow t
    reference_high := refHigh t
    normal_flag := if refLow t ≤ v ∧ v ≤ refHigh t then "Normal" else "Abnormal" }

/-- The raw (pre-rounding) lab value: 90% of gate draws give a value inside
the reference range, the rest fall in a half-span band below or above it
(fair-coin direction), per `generate_lab_results`. -/
def rawLabValue (t : LabTest) (gate dir k : ℕ) : ℚ :=
  let lo := refLow t
  let hi := refHigh t
  if gate % 10 < 9 then uniformQ lo hi k
  else if dir % 2 = 0 then uniformQ (lo - (hi - lo) / 2) lo k
  else uniformQ hi (hi + (hi - lo) / 2) k

/-- Claim C1: for every generated lab result, `normal_flag = "Normal"` iff
`reference_low ≤ result_value ≤ reference_high` (boundaries inclusive),
where `result_value` is the value after the test-specific rounding. -/
theorem c1_normal_flag_iff_in_range (pid sid : String) (visit : ℤ)
    (t : LabTest) (raw : ℚ) :
    (genLabRecord pid sid visit t raw).normal_flag = "Normal" ↔
      (genLabRecord pid sid visit t raw).reference_low ≤
          (genLabRecord pid sid visit t raw).result_value ∧
        (genLabRecord pid sid visit t raw).result_value ≤
          (genLabRecord pid sid visit t raw).reference_high := by
  show (if refLow t ≤ applyLabRounding t raw ∧ applyLabRounding t raw ≤ refHigh t
      then "Normal" else "Abnormal") = "Normal" ↔ _
  by_cases h : refLow t ≤ applyLabRounding t raw ∧ applyLabRounding t raw ≤ refHigh t
  · simp [genLabRecord, h]
  · simp [genLabRecord, h]

/-! ### Site performance generator (`create_sample_data.generate_site_performance`) -/

/-- `enrollment_targets = np.random.randint(30, 100)`: support `[30, 99]`. -/
def enrollmentTargetOf (k : ℕ) : ℕ := pyRandint 30 100 k

/-- `actual = int(target * np.random.uniform(0.5, 1.2))` (line 265): the
uniform draw `u` is truncated toward zero after scaling the target. -/
def actualEnrollmentOf (target : ℕ) (u : ℚ) : ℤ := pyInt ((target : ℚ) * u)

/-- `deviation_rate = protocol_deviations / actual_enrollment`
(`descriptive_analytics.py` line 353). -/
def deviationRate (dev : ℕ) (actual : ℤ) : ℚ := (dev : ℚ) / (actual : ℚ)

/-- One row of the site-performance table. -/
structure SiteRec where
  site_id : String
  country : String
  site_type : String
  experience_level : String
  enrollment_target : ℕ
  actual_enrollment : ℤ
  enrollment_rate : ℚ
  retention_rate : ℚ
  protocol_deviations : ℕ
  data_queries : ℕ
  query_resolution_time : ℚ
deriving DecidableEq

/-- The ten fixed site countries. -/
def countriesList : List String :=
  ["USA", "Canada", "UK", "Germany", "France", "Australia", "Japan",
   "Brazil", "India", "China"]

/-- `generate_site_performance`: ten sites with drawn characteristics. -/
def generateSites (rng : ℕ → ℕ) : List SiteRec :=
  (List.range 10).map (fun i =>
    let target := enrollmentTargetOf (rng (9000 + 9 * i))
    { site_id := "SITE" ++ zfill 2 (i + 1)
      country := countriesList.getD i ""
      site_type := choiceD ["Academic", "Hospital", "Private Practice",
        "Research Center"] (rng (9000 + 9 * i + 1))
      experience_level := choiceD ["High", "Medium", "Low"]
        (rng (9000 + 9 * i + 2))
      enrollment_target := target
      actual_enrollment := actualEnrollmentOf target
        (uniformQ (1/2) (6/5) (rng (9000 + 9 * i + 3)))
      enrollment_rate := pyRoundTo1 (uniformQ 1 5 (rng (9000 + 9 * i + 4)))
      retention_rate := pyRoundTo1 (uniformQ 75 98 (rng (9000 + 9 * i + 5)))
      protocol_deviations := pyRandint 0 20 (rng (9000 + 9 * i + 6))
      data_queries := pyRandint 5 50 (rng (9000 + 9 * i + 7))
      query_resolution_time := pyRoundTo1 (uniformQ 1 10 (rng (9000 + 9 * i + 8))) })

/-- Claim C3, counterexample: with `enrollment_target = 31` (a value in the
support of `randint(30, 100)`) and uniform draw `u = 0.505 ∈ [0.5, 1.2)`,
the code computes `int(31 × 0.505) = int(15.655) = 15`, and the ratio
`15 / 31 < 0.5` falls outside the claimed interval `[0.5, 1.2]`: the
`int(...)` truncation can push the ratio below its claimed lower bound. -/
theorem c3_ratio_counterexample :
    30 ≤ enrollmentTargetOf 1 ∧ enrollmentTargetOf 1 = 31 ∧
      (1/2 : ℚ) ≤ 101/200 ∧ (101/200 : ℚ) < 6/5 ∧
      actualEnrollmentOf 31 (101/200) = 15 ∧
      ¬ ((1/2 : ℚ) ≤ (actualEnrollmentOf 31 (101/200) : ℚ) / 31 ∧
          (actualEnrollmentOf 31 (101/200) : ℚ) / 31 ≤ 6/5) := by
  refine ⟨by decide, by decide, by norm_num, by norm_num, ?_, ?_⟩ <;>
    norm_num [actualEnrollmentOf, pyInt, Int.floor_eq_iff]

/-- Claim C3 (amended): `actual_enrollment = int(target × u)` truncated
toward zero for some `u ∈ [0.5, 1.2)`, hence for every site the ratio
`actual_enrollment / enrollment_target` lies in the half-open interval
`(0.5 − 1/target, 1.2)` (truncation can undershoot `0.5` by less than
`1/target`, and the ratio never reaches `1.2`). -/
theorem c3_ratio_amended (k : ℕ) (u : ℚ) (h1 : 1/2 ≤ u) (h2 : u < 6/5) :
    (1/2 : ℚ) - 1 / (enrollmentTargetOf k : ℚ) <
        (actualEnrollmentOf (enrollmentTargetOf k) u : ℚ) /
          (enrollmentTargetOf k : ℚ) ∧
      (actualEnrollmentOf (enrollmentTargetOf k) u : ℚ) /
          (enrollmentTargetOf k : ℚ) < 6/5 := by
  set t := enrollmentTargetOf k with ht
  have htlb : 30 ≤ t := Nat.le_add_right 30 _
  have htlbQ : (30 : ℚ) ≤ (t : ℚ) := by exact_mod_cast htlb
  have htpos : (0 : ℚ) < (t : ℚ) := by linarith
  have hu0 : (0 : ℚ) ≤ (t : ℚ) * u := by nlinarith
  have hae : actualEnrollmentOf t u = ⌊(t : ℚ) * u⌋ := by
    simp [actualEnrollmentOf, pyInt, hu0]
  have hfl : (t : ℚ) * u - 1 < ((⌊(t : ℚ) * u⌋ : ℤ) : ℚ) :=
    Int.sub_one_lt_floor _
  have hfu : ((⌊(t : ℚ) * u⌋ : ℤ) : ℚ) ≤ (t : ℚ) * u := Int.floor_le _
  constructor
  · rw [hae, lt_div_iff htpos]
    have h1t : (1 / (t : ℚ)) * (t : ℚ) = 1 := by field_simp
    nlinarith [mul_le_mul_of_nonneg_left h1 (le_of_lt htpos)]
  · rw [hae, div_lt_iff htpos]
    nlinarith [mul_lt_mul_of_pos_left h2 htpos]

/-- Claim C3 witness: the amended ratio bounds instantiated at
`k = 1` (target 31) and `u = 0.505`. -/
theorem c3_ratio_amended_witness :
    (1/2 : ℚ) ≤ 101/200 ∧ (101/200 : ℚ) < 6/5 ∧
      ((1/2 : ℚ) - 1 / (enrollmentTargetOf 1 : ℚ) <
          (actualEnrollmentOf (enrollmentTargetOf 1) (101/200) : ℚ) /
            (enrollmentTargetOf 1 : ℚ) ∧
        (actualEnrollmentOf (enrollmentTargetOf 1) (101/200) : ℚ) /
            (enrollmentTargetOf 1 : ℚ) < 6/5) :=
  ⟨by norm_num, by norm_num,
    c3_ratio_amended 1 (101/200) (by norm_num) (by norm_num)⟩

/-- Claim C10: for every generated site, `actual_enrollment ≥ 15`
(target at least 30, variation factor at least 0.5, truncated), hence the
denominator of the Summary Reporter's `deviation_rate` is never zero. -/
theorem c10_actual_enrollment_pos (k : ℕ) (u : ℚ)
    (h1 : 1/2 ≤ u) (h2 : u < 6/5) :
    15 ≤ actualEnrollmentOf (enrollmentTargetOf k) u ∧
      ((actualEnrollmentOf (enrollmentTargetOf k) u : ℤ) : ℚ) ≠ 0 ∧
      deviationRate 0 (actualEnrollmentOf (enrollmentTargetOf k) u) = 0 := by
  set t := enrollmentTargetOf k with ht
  have htlb : 30 ≤ t := Nat.le_add_right 30 _
  have htlbQ : (30 : ℚ) ≤ (t : ℚ) := by exact_mod_cast htlb
  have hu0 : (0 : ℚ) ≤ (t : ℚ) * u := by nlinarith
  have hae : actualEnrollmentOf t u = ⌊(t : ℚ) * u⌋ := by
    simp [actualEnrollmentOf, pyInt, hu0]
  have h15 : 15 ≤ actualEnrollmentOf t u := by
    rw [hae, Int.le_floor]
    push_cast
    nlinarith
  refine ⟨h15, ?_, ?_⟩
  · have : (15 : ℚ) ≤ ((actualEnrollmentOf t u : ℤ) : ℚ) := by exact_mod_cast h15
    intro hz
    rw [hz] at this
    norm_num at this
  · simp [deviationRate]

/-- Claim C10 witness: instantiated at `k = 0` (target 30) and `u = 0.5`,
where `actual_enrollment = 15`. -/
theorem c10_actual_enrollment_pos_witness :
    (1/2 : ℚ) ≤ 1/2 ∧ (1/2 : ℚ) < 6/5 ∧
      (15 ≤ actualEnrollmentOf (enrollmentTargetOf 0) (1/2) ∧
        ((actualEnrollmentOf (enrollmentTargetOf 0) (1/2) : ℤ) : ℚ) ≠ 0 ∧
        deviationRate 0 (actualEnrollmentOf (enrollmentTargetOf 0) (1/2)) = 0) :=
  ⟨le_refl _, by norm_num,
    c10_actual_enrollment_pos 0 (1/2) (le_refl _) (by norm_num)⟩


/-! ### Patient generator (`create_sample_data.generate_patient_data`) -/

/-- One row of the patients table. -/
structure PatientRec where
  patient_id : String
  site_id : String
  study_arm : String
  age : ℤ
  gender : String
  ethnicity : String
  medical_history : String
  enrollment_date : ℤ
  status : String
deriving DecidableEq

/-- The nine concrete medical conditions (the `conditions` list without its
final "None" entry). -/
def conditionsPool : List String :=
  ["Hypertension", "Diabetes", "Asthma", "COPD", "Depression",
   "Anxiety", "Arthritis", "Obesity", "Hyperlipidemia"]

/-- The per-patient medical-history draw: 0 conditions give "None",
otherwise a comma-joined sample of 1-5 distinct conditions (the
without-replacement sample is modelled by a rotation of the pool). -/
def historyChoice (k : ℕ) : String :=
  let m := k % 6
  if m = 0 then "None"
  else String.intercalate ", " ((conditionsPool.rotate (k % 9)).take m)

/-- `generate_patient_data(n)` with the seeded draw stream `rng` and the
current day `today` (`datetime.now()`): ids `PT0001..`, drawn demographics,
and `enrollment_date = (today − 365) + randint(0, 300)` (lines 66-71). -/
def generatePatients (rng : ℕ → ℕ) (today : ℤ) (n : ℕ) : List PatientRec :=
  (List.range n).map (fun i =>
    { patient_id := "PT" ++ zfill 4 (i + 1)
      site_id := "SITE" ++ zfill 2 (1 + rng (8 * i + 2) % 10)
      study_arm := choiceD ["Treatment", "Placebo"] (rng (8 * i))
      age := clipZ 18 85 ((rng (8 * i + 1) : ℤ) - 2147483648)
      gender := choiceD ["Male", "Female"] (rng (8 * i + 3))
      ethnicity := choiceD ["Caucasian", "African American", "Hispanic",
        "Asian", "Other"] (rng (8 * i + 4))
      medical_history := historyChoice (rng (8 * i + 5))
      enrollment_date := (today - 365) + (pyRandint 0 300 (rng (8 * i + 6)) : ℤ)
      status := choiceD ["Completed", "Ongoing", "Withdrawn",
        "Lost to Follow-up"] (rng (8 * i + 7)) })

/-! ### Adverse events generator (`create_sample_data.generate_adverse_events`) -/

/-- One row of the adverse-events table. -/
structure AdverseEvent where
  patient_id : String
  site_id : String
  adverse_event : String
  severity : String
  relationship : String
  event_date : ℤ
  resolution_status : String
deriving DecidableEq

/-- The fifteen possible adverse-event names. -/
def adverseEventsPool : List String :=
  ["Headache", "Nausea", "Dizziness", "Fatigue", "Insomnia",
   "Rash", "Diarrhea", "Vomiting", "Abdominal Pain", "Fever",
   "Cough", "Muscle Pain", "Joint Pain", "Allergic Reaction", "Hypertension"]

/-- The per-patient body of `generate_adverse_events`: if the probability
gate passes, 1-3 events are generated, each dated
`enrollment_date + randint(1, 180)` days (support `[1, 179]`); otherwise
the patient has no events. -/
def genAdverseEventsFor (p : PatientRec) (gate : Bool) (numKey : ℕ)
    (evKeys sevKeys relKeys dayKeys resKeys : ℕ → ℕ) : List AdverseEvent :=
  if gate then
    (List.range (1 + numKey % 3)).map (fun j =>
      { patient_id := p.patient_id
        site_id := p.site_id
        adverse_event := choiceD adverseEventsPool (evKeys j)
        severity := choiceD ["Mild", "Moderate", "Severe", "Life-threatening"]
          (sevKeys j)
        relationship := choiceD ["Not Related", "Unlikely Related",
          "Possibly Related", "Probably Related", "Definitely Related"]
          (relKeys j)
        event_date := p.enrollment_date + (pyRandint 1 180 (dayKeys j) : ℤ)
        resolution_status := choiceD ["Resolved", "Ongoing"] (resKeys j) })
  else []

/-- Claim C5: every generated adverse event is dated on or after the owning
patient's enrollment date with a day offset in `[1, 180]`, and every
patient has between 0 and 3 adverse events. -/
theorem c5_adverse_event_dates (p : PatientRec) (gate : Bool) (numKey : ℕ)
    (evKeys sevKeys relKeys dayKeys resKeys : ℕ → ℕ) :
    (genAdverseEventsFor p gate numKey evKeys sevKeys relKeys dayKeys
        resKeys).length ≤ 3 ∧
      ∀ e ∈ genAdverseEventsFor p gate numKey evKeys sevKeys relKeys dayKeys
          resKeys,
        p.enrollment_date ≤ e.event_date ∧
          1 ≤ e.event_date - p.enrollment_date ∧
          e.event_date - p.enrollment_date ≤ 180 := by
  constructor
  · by_cases hg : gate
    · simp only [genAdverseEventsFor, hg, if_true, List.length_map,
        List.length_range]
      omega
    · simp [genAdverseEventsFor, hg]
  · intro e he
    by_cases hg : gate
    · simp only [genAdverseEventsFor, hg, if_true, List.mem_map,
        List.mem_range] at he
      obtain ⟨j, -, rfl⟩ := he
      simp only [pyRandint]
      have hd : dayKeys j % 179 < 179 := Nat.mod_lt _ (by norm_num)
      have h1 : (1 : ℤ) ≤ ((1 + dayKeys j % 179 : ℕ) : ℤ) := by
        exact_mod_cast Nat.le_add_right 1 _
      have h2 : ((1 + dayKeys j % 179 : ℕ) : ℤ) ≤ 180 := by
        have hb : 1 + dayKeys j % 179 ≤ 180 := by omega
        exact_mod_cast hb
      refine ⟨by omega, by omega, by omega⟩
    · simp [genAdverseEventsFor, hg] at he

/-- Claim C5 witness: a concrete patient with the gate passing and all draw
keys zero yields one event dated one day after enrollment. -/
theorem c5_adverse_event_dates_witness :
    (genAdverseEventsFor
        { patient_id := "PT0001", site_id := "SITE01",
          study_arm := "Treatment", age := 45, gender := "Male",
          ethnicity := "Asian", medical_history := "None",
          enrollment_date := 100, status := "Completed" }
        true 0 (fun _ => 0) (fun _ => 0) (fun _ => 0) (fun _ => 0)
        (fun _ => 0)).length ≤ 3 ∧
      (100 : ℤ) ≤ 101 ∧ (1 : ℤ) ≤ 101 - 100 ∧ (101 - 100 : ℤ) ≤ 180 := by
  have h := c5_adverse_event_dates
    { patient_id := "PT0001", site_id := "SITE01",
      study_arm := "Treatment", age := 45, gender := "Male",
      ethnicity := "Asian", medical_history := "None",
      enrollment_date := 100, status := "Completed" }
    true 0 (fun _ => 0) (fun _ => 0) (fun _ => 0) (fun _ => 0) (fun _ => 0)
  refine ⟨h.1, ?_⟩
  have hm := h.2
    { patient_id := "PT0001", site_id := "SITE01",
      adverse_event := "Headache", severity := "Mild",
      relationship := "Not Related", event_date := 101,
      resolution_status := "Resolved" }
    (by decide)
  exact hm


/-! ### Full generator run (`create_sample_data.py` top level) -/

/-- `generate_adverse_events(patient_df)`: per-patient probability gate
(`random() < 0.4 × (1.2 | 0.8)` depending on the study arm, modelled on a
percent grid), then the per-patient event generation. -/
def generateAdverseEvents (rng : ℕ → ℕ) (patients : List PatientRec) :
    List AdverseEvent :=
  (patients.enum).flatMap (fun ip =>
    let i := ip.1
    let p := ip.2
    let threshold := if p.study_arm = "Treatment" then 48 else 32
    genAdverseEventsFor p (rng (1000 + 20 * i) % 100 < threshold)
      (rng (1000 + 20 * i + 1))
      (fun j => rng (1000 + 20 * i + 2 + 5 * j))
      (fun j => rng (1000 + 20 * i + 3 + 5 * j))
      (fun j => rng (1000 + 20 * i + 4 + 5 * j))
      (fun j => rng (1000 + 20 * i + 5 + 5 * j))
      (fun j => rng (1000 + 20 * i + 6 + 5 * j)))

/-- The `lab_tests` list in source order. -/
def labTestsList : List LabTest :=
  [.hemoglobin, .wbcCount, .plateletCount, .alt, .ast,
   .creatinine, .glucose, .potassium, .sodium]

/-- `generate_lab_results(patient_df)`: 1-3 visits per patient, 30 days
apart, one record per lab test per visit. -/
def generateLabResults (rng : ℕ → ℕ) (patients : List PatientRec) :
    List LabRecord :=
  (patients.enum).flatMap (fun ip =>
    let i := ip.1
    let p := ip.2
    let numVisits := pyRandint 1 4 (rng (50000 + 400 * i))
    (List.range numVisits).flatMap (fun v =>
      let visitDate := p.enrollment_date + 30 * v
      (labTestsList.enum).map (fun tt =>
        let base := 50000 + 400 * i + 40 * v + 4 * tt.1
        genLabRecord p.patient_id p.site_id visitDate tt.2
          (rawLabValue tt.2 (rng (base + 1)) (rng (base + 2)) (rng (base + 3))))))

/-- One row of the study-timeline table; actual dates are nullable. -/
structure PhaseRow where
  phase : String
  planned_start_date : ℤ
  planned_end_date : ℤ
  actual_start_date : Option ℤ
  actual_end_date : Option ℤ
  status : String
deriving DecidableEq

/-- The nine fixed study phases in order. -/
def phasesList : List String :=
  ["Protocol Development", "Site Selection", "Site Initiation",
   "First Patient In", "Enrollment Period", "Treatment Period",
   "Last Patient Last Visit", "Database Lock", "Final Report"]

/-- The phase loop of `generate_study_timeline`: planned dates run
consecutively from the start date; with 70% probability the actual start is
delayed and the actual duration rescaled; actual dates lying after `today`
(`datetime.now()`) are stored as null and drive the status. -/
def timelineAux (rng : ℕ → ℕ) (today : ℤ) :
    List String → ℕ → ℤ → List PhaseRow
  | [], _, _ => []
  | ph :: rest, i, current =>
    let duration : ℕ :=
      if ph = "Enrollment Period" ∨ ph = "Treatment Period" then
        pyRandint 180 365 (rng (7000 + 5 * i))
      else pyRandint 14 90 (rng (7000 + 5 * i))
    let ps := current
    let pe := current + (duration : ℤ)
    let actualPair : ℤ × ℤ :=
      if rng (7000 + 5 * i + 1) % 10 < 7 then
        let delay := pyRandint 0 30 (rng (7000 + 5 * i + 2))
        let actualStart := ps + (delay : ℤ)
        let actualDur := pyInt ((duration : ℚ) *
          uniformQ (9/10) (6/5) (rng (7000 + 5 * i + 3)))
        (actualStart, actualStart + actualDur)
      else (ps, pe)
    let row : PhaseRow :=
      if today < actualPair.2 then
        if today < actualPair.1 then
          { phase := ph, planned_start_date := ps, planned_end_date := pe,
            actual_start_date := none, actual_end_date := none,
            status := "Planned" }
        else
          { phase := ph, planned_start_date := ps, planned_end_date := pe,
            actual_start_date := some actualPair.1, actual_end_date := none,
            status := "In Progress" }
      else
        { phase := ph, planned_start_date := ps, planned_end_date := pe,
          actual_start_date := some actualPair.1,
          actual_end_date := some actualPair.2, status := "Completed" }
    row :: timelineAux rng today rest (i + 1) pe

/-- `generate_study_timeline()`: the nine phases starting two years before
`today` (lines 311-312). -/
def generateTimeline (rng : ℕ → ℕ) (today : ℤ) : List PhaseRow :=
  timelineAux rng today phasesList 0 (today - 730)

/-- The five flat-file tables written by one generator run. -/
structure FlatFiles where
  patients : List PatientRec
  adverse_events : List AdverseEvent
  lab_results : List LabRecord
  site_performance : List SiteRec
  study_timeline : List PhaseRow
deriving DecidableEq

/-- One full generator run: all five tables from the draw stream `rng`, the
current day `today`, and the patient count `n`. -/
def flatFileOutput (rng : ℕ → ℕ) (today : ℤ) (n : ℕ) : FlatFiles :=
  let ps := generatePatients rng today n
  { patients := ps
    adverse_events := generateAdverseEvents rng ps
    lab_results := generateLabResults rng ps
    site_performance := generateSites rng
    study_timeline := generateTimeline rng today }

/-- Modelled from the spec: `np.random.seed(s)` makes the subsequent draw
stream a fixed deterministic function of `s` (the library PRNG itself is
not part of this repository); any fixed function of the seed captures
that contract. -/
def seedStream (seed : ℕ) : ℕ → ℕ := fun i => (seed + 2654435761 * i) % 4294967296

/-- A generator run keyed by seed, current day and record count. -/
def flatFileRun (seed : ℕ) (today : ℤ) (n : ℕ) : FlatFiles :=
  flatFileOutput (seedStream seed) today n

/-- Claim C4, counterexample: two runs with the same seed (42) and the same
record count (1) executed on different days (`today = 0` vs `today = 1`)
produce different flat-file output — the enrollment dates are anchored at
`datetime.now() − 365` days, so the output is not a function of seed and
count alone. -/
theorem c4_counterexample : flatFileRun 42 0 1 ≠ flatFileRun 42 1 1 := by
  intro h
  have hd := congrArg (fun o => o.patients.map (fun p => p.enrollment_date)) h
  revert hd
  decide

/-- Claim C4 (amended): regenerating with the same seed, the same record
count and the same current date produces identical flat-file output — the
whole run is a pure function of seed, date and count. -/
theorem c4_deterministic (s1 s2 : ℕ) (t1 t2 : ℤ) (n1 n2 : ℕ)
    (hs : s1 = s2) (ht : t1 = t2) (hn : n1 = n2) :
    flatFileRun s1 t1 n1 = flatFileRun s2 t2 n2 := by
  subst hs; subst ht; subst hn; rfl

/-- Claim C4 witness: the amended determinism instantiated at seed 42,
day 0, count 3. -/
theorem c4_deterministic_witness :
    flatFileRun 42 0 3 = flatFileRun 42 0 3 :=
  c4_deterministic 42 42 0 0 3 3 rfl rfl rfl


/-! ### Feature Builder (`predictive_analytics.py` lines 62-109) -/

/-- `groupby(key).size()` as a keyed table: one row per distinct key with
its multiplicity (pandas counts are floats after a merge, hence `ℚ`). -/
def countByQ (keys : List String) : List (String × ℚ) :=
  keys.dedup.map (fun k => (k, (keys.count k : ℚ)))

/-- `first_labs_pivot` restricted to one value column: the first lab value
per patient (`groupby('patient_id').first()`), one row per distinct
patient id. -/
def labFirstTable (labs : List LabRecord) : List (String × ℚ) :=
  (labs.map (fun r => r.patient_id)).dedup.map (fun pid =>
    (pid, ((labs.find? (fun r => r.patient_id == pid)).map
      (fun r => r.result_value)).getD 0))

/-- `ae_counts`: adverse events per patient (`groupby('patient_id').size()`). -/
def aeCountTable (aes : List AdverseEvent) : List (String × ℚ) :=
  countByQ (aes.map (fun e => e.patient_id))

/-- `severe_ae_counts`: severe / life-threatening adverse events per patient
(the `isin(['Severe', 'Life-threatening'])` filter, then `size()`). -/
def severeAeCountTable (aes : List AdverseEvent) : List (String × ℚ) :=
  countByQ ((aes.filter (fun e =>
    e.severity == "Severe" || e.severity == "Life-threatening")).map
      (fun e => e.patient_id))

/-- `pd.merge(left, right, on=key, how='left')` with one value column on
the right: unmatched left rows get a null value, and a left row is
repeated once per matching right row. -/
def leftMergeOpt {α β : Type} (keyOf : α → String) (left : List α)
    (right : List (String × β)) : List (α × Option β) :=
  left.flatMap (fun a =>
    let ms := right.filter (fun r => r.1 == keyOf a)
    if ms.isEmpty then [(a, none)] else ms.map (fun m => (a, some m.2)))

/-- One row of the dropout feature table (the columns claim C2 is about). -/
structure FeatureRow where
  patient : PatientRec
  first_lab : Option ℚ
  adverse_event_count : Option ℚ
  severe_ae_count : Option ℚ
deriving DecidableEq

/-- The Feature Builder (lines 91-109): left-merge the first-lab pivot, the
adverse-event counts and the severe-event counts onto the patient table,
then `fillna(0)` the two count columns. -/
def featureTable (patients : List PatientRec) (aes : List AdverseEvent)
    (labs : List LabRecord) : List FeatureRow :=
  let m1 := leftMergeOpt (fun p => p.patient_id) patients (labFirstTable labs)
  let m2 := leftMergeOpt (fun x => x.1.patient_id) m1 (aeCountTable aes)
  let m3 := leftMergeOpt (fun x => x.1.1.patient_id) m2 (severeAeCountTable aes)
  m3.map (fun x =>
    { patient := x.1.1.1
      first_lab := x.1.1.2
      adverse_event_count := some ((x.1.2).getD 0)
      severe_ae_count := some ((x.2).getD 0) })

/-- A keyed table built over deduplicated keys has pairwise-distinct keys. -/
theorem keyed_map_fst_nodup {β : Type} (keys : List String) (f : String → β) :
    ((keys.dedup.map (fun k => (k, f k))).map Prod.fst).Nodup := by
  rw [List.map_map]
  have h : (Prod.fst ∘ fun k => ((k, f k) : String × β)) = fun k => k := rfl
  rw [h]
  simpa using keys.nodup_dedup

/-- In a table with pairwise-distinct keys, at most one row matches a key. -/
theorem filter_key_len_le_one {β : Type} (k : String) :
    ∀ right : List (String × β), (right.map Prod.fst).Nodup →
      (right.filter (fun r => r.1 == k)).length ≤ 1 := by
  intro right
  induction right with
  | nil => intro _; simp
  | cons a rest ih =>
    intro hnd
    rw [List.map_cons, List.nodup_cons] at hnd
    by_cases hk : (a.1 == k) = true
    · have ha : a.1 = k := eq_of_beq hk
      have hempty : rest.filter (fun r => r.1 == k) = [] := by
        rw [List.filter_eq_nil_iff]
        intro b hb hbk
        exact hnd.1 (List.mem_map.mpr ⟨b, hb, by rw [eq_of_beq hbk, ha]⟩)
      simp [List.filter_cons, hk, hempty]
    · have hkf : (a.1 == k) = false := by
        simpa using hk
      simp only [List.filter_cons, hkf, Bool.false_eq_true, if_false]
      exact ih hnd.2

/-- A left merge against a table with pairwise-distinct keys produces
exactly one output row per left row (nothing dropped, nothing duplicated). -/
theorem leftMergeOpt_length {α β : Type} (keyOf : α → String) (left : List α)
    (right : List (String × β)) (hnd : (right.map Prod.fst).Nodup) :
    (leftMergeOpt keyOf left right).length = left.length := by
  induction left with
  | nil => rfl
  | cons a rest ih =>
    have hstep : leftMergeOpt keyOf (a :: rest) right =
        (if (right.filter (fun r => r.1 == keyOf a)).isEmpty
          then [(a, (none : Option β))]
          else (right.filter (fun r => r.1 == keyOf a)).map
            (fun m => (a, some m.2))) ++ leftMergeOpt keyOf rest right := by
      simp [leftMergeOpt, List.flatMap_cons]
    rw [hstep, List.length_append, ih, List.length_cons]
    by_cases he : (right.filter (fun r => r.1 == keyOf a)).isEmpty
    · simp only [he, if_true, List.length_singleton]
      omega
    · simp only [he, Bool.false_eq_true, if_false, List.length_map]
      have hle : (right.filter (fun r => r.1 == keyOf a)).length ≤ 1 :=
        filter_key_len_le_one (keyOf a) right hnd
      have hne : right.filter (fun r => r.1 == keyOf a) ≠ [] := by
        simpa [List.isEmpty_iff] using he
      have hpos : 0 < (right.filter (fun r => r.1 == keyOf a)).length :=
        List.length_pos.mpr hne
      omega

/-- The left component of every merge output row is a left-table row. -/
theorem leftMergeOpt_fst_mem {α β : Type} (keyOf : α → String)
    (left : List α) (right : List (String × β)) (x : α × Option β)
    (h : x ∈ leftMergeOpt keyOf left right) : x.1 ∈ left := by
  rw [leftMergeOpt, List.mem_flatMap] at h
  obtain ⟨b, hb, hmem⟩ := h
  by_cases he : (right.filter (fun r => r.1 == keyOf b)).isEmpty
  · rw [if_pos he, List.mem_singleton] at hmem
    rw [hmem]
    exact hb
  · rw [if_neg he, List.mem_map] at hmem
    obtain ⟨m, _, heq⟩ := hmem
    rw [← heq]
    exact hb

/-- The value component of every merge output row is null or a right-table
value. -/
theorem leftMergeOpt_snd_shape {α β : Type} (keyOf : α → String)
    (left : List α) (right : List (String × β)) (x : α × Option β)
    (h : x ∈ leftMergeOpt keyOf left right) :
    x.2 = none ∨ ∃ kv ∈ right, x.2 = some kv.2 := by
  rw [leftMergeOpt, List.mem_flatMap] at h
  obtain ⟨b, hb, hmem⟩ := h
  by_cases he : (right.filter (fun r => r.1 == keyOf b)).isEmpty
  · rw [if_pos he, List.mem_singleton] at hmem
    left
    rw [hmem]
  · rw [if_neg he, List.mem_map] at hmem
    obtain ⟨m, hm, heq⟩ := hmem
    right
    refine ⟨m, List.mem_of_mem_filter hm, ?_⟩
    rw [← heq]

/-- The first-lab pivot has one row per distinct patient id. -/
theorem labFirstTable_keys_nodup (labs : List LabRecord) :
    ((labFirstTable labs).map Prod.fst).Nodup :=
  keyed_map_fst_nodup _ _

/-- The adverse-event count table has one row per distinct patient id. -/
theorem aeCountTable_keys_nodup (aes : List AdverseEvent) :
    ((aeCountTable aes).map Prod.fst).Nodup :=
  keyed_map_fst_nodup _ _

/-- The severe-event count table has one row per distinct patient id. -/
theorem severeAeCountTable_keys_nodup (aes : List AdverseEvent) :
    ((severeAeCountTable aes).map Prod.fst).Nodup :=
  keyed_map_fst_nodup _ _

/-- Every value stored in a count table is a natural number cast to `ℚ`. -/
theorem countByQ_val (keys : List String) (kv : String × ℚ)
    (h : kv ∈ countByQ keys) : ∃ n : ℕ, kv.2 = (n : ℚ) := by
  rw [countByQ, List.mem_map] at h
  obtain ⟨k, -, rfl⟩ := h
  exact ⟨keys.count k, rfl⟩

/-- Claim C2: the feature table has exactly one row per input patient row
(the left joins drop and duplicate nothing), and after the `fillna(0)` the
`adverse_event_count` and `severe_ae_count` columns are never null and
always hold integers ≥ 0 (naturals cast to the column type). -/
theorem c2_feature_table_total (patients : List PatientRec)
    (aes : List AdverseEvent) (labs : List LabRecord) :
    (featureTable patients aes labs).length = patients.length ∧
      ∀ row ∈ featureTable patients aes labs,
        (∃ a : ℕ, row.adverse_event_count = some (a : ℚ)) ∧
          ∃ b : ℕ, row.severe_ae_count = some (b : ℚ) := by
  constructor
  · rw [featureTable, List.length_map]
    rw [leftMergeOpt_length _ _ _ (severeAeCountTable_keys_nodup aes)]
    rw [leftMergeOpt_length _ _ _ (aeCountTable_keys_nodup aes)]
    exact leftMergeOpt_length _ _ _ (labFirstTable_keys_nodup labs)
  · intro row hrow
    rw [featureTable, List.mem_map] at hrow
    obtain ⟨x, hx, rfl⟩ := hrow
    constructor
    · have hx1 : x.1 ∈ leftMergeOpt (fun y => y.1.patient_id)
          (leftMergeOpt (fun p => p.patient_id) patients (labFirstTable labs))
          (aeCountTable aes) :=
        leftMergeOpt_fst_mem _ _ _ x hx
      rcases leftMergeOpt_snd_shape _ _ _ x.1 hx1 with hn | ⟨kv, hkv, hs⟩
      · exact ⟨0, by rw [hn]; rfl⟩
      · obtain ⟨n, hnv⟩ := countByQ_val _ kv hkv
        exact ⟨n, by rw [hs, hnv]; rfl⟩
    · rcases leftMergeOpt_snd_shape _ _ _ x hx with hn | ⟨kv, hkv, hs⟩
      · exact ⟨0, by rw [hn]; rfl⟩
      · obtain ⟨n, hnv⟩ := countByQ_val _ kv hkv
        exact ⟨n, by rw [hs, hnv]; rfl⟩

/-- Claim C2 witness: one patient, no adverse events, no labs — one output
row with both counts zero-filled. -/
theorem c2_feature_table_total_witness :
    (featureTable
        [{ patient_id := "PT0001", site_id := "SITE01",
           study_arm := "Treatment", age := 45, gender := "Male",
           ethnicity := "Asian", medical_history := "None",
           enrollment_date := 100, status := "Completed" }] [] []).length = 1 ∧
      ((∃ a : ℕ,
          (FeatureRow.mk
            { patient_id := "PT0001", site_id := "SITE01",
              study_arm := "Treatment", age := 45, gender := "Male",
              ethnicity := "Asian", medical_history := "None",
              enrollment_date := 100, status := "Completed" }
            none (some 0) (some 0)).adverse_event_count = some (a : ℚ)) ∧
        ∃ b : ℕ,
          (FeatureRow.mk
            { patient_id := "PT0001", site_id := "SITE01",
              study_arm := "Treatment", age := 45, gender := "Male",
              ethnicity := "Asian", medical_history := "None",
              enrollment_date := 100, status := "Completed" }
            none (some 0) (some 0)).severe_ae_count = some (b : ℚ)) := by
  have h := c2_feature_table_total
    [{ patient_id := "PT0001", site_id := "SITE01",
       study_arm := "Treatment", age := 45, gender := "Male",
       ethnicity := "Asian", medical_history := "None",
       enrollment_date := 100, status := "Completed" }] [] []
  exact ⟨h.1, h.2 _ (by decide)⟩


/-! ### Summary Reporter: lab abnormal rates
(`descriptive_analytics.py` lines 230-240) -/

/-- `value_counts()` as a keyed table of multiplicities. -/
def countByN (keys : List String) : List (String × ℕ) :=
  keys.dedup.map (fun k => (k, keys.count k))

/-- The test names of the abnormal lab rows
(`lab_results_df[lab_results_df['normal_flag'] == 'Abnormal']`). -/
def abnormalKeys (labs : List LabRecord) : List String :=
  (labs.filter (fun r => r.normal_flag == "Abnormal")).map (fun r => r.test_name)

/-- `abnormal_counts`: value counts of the abnormal rows' test names. -/
def abnormalCounts (labs : List LabRecord) : List (String × ℕ) :=
  countByN (abnormalKeys labs)

/-- `total_counts`: value counts of all rows' test names. -/
def totalCounts (labs : List LabRecord) : List (String × ℕ) :=
  countByN (labs.map (fun r => r.test_name))

/-- One row of the `lab_abnormal_rates` table. -/
structure RateRow where
  test_name : String
  abnormal_count : ℕ
  total_count : ℕ
  abnormal_rate : ℚ
deriving DecidableEq

/-- `lab_abnormal_rates = pd.merge(abnormal_counts, total_counts,
on='Test Name')` followed by the rate column: an inner merge of the two
count tables. -/
def labAbnormalRates (labs : List LabRecord) : List RateRow :=
  (abnormalCounts labs).flatMap (fun ac =>
    ((totalCounts labs).filter (fun tc => tc.1 == ac.1)).map (fun tc =>
      { test_name := ac.1
        abnormal_count := ac.2
        total_count := tc.2
        abnormal_rate := (ac.2 : ℚ) / (tc.2 : ℚ) * 100 }))

/-- The generated Glucose record for a drawn value of 85: inside the
reference range (70, 100), flagged "Normal" (the spec's own end-to-end
scenario). -/
theorem genLabRecord_glucose_85_eval :
    genLabRecord "PT0001" "SITE01" 0 .glucose 85 =
      { patient_id := "PT0001", site_id := "SITE01", visit_date := 0,
        test_name := "Glucose", result_value := 85, unit := "mg/dL",
        reference_low := 70, reference_high := 100,
        normal_flag := "Normal" } := by
  have hr : pyRound (85 : ℚ) = 85 := by norm_num [pyRound]
  simp [genLabRecord, applyLabRounding, refLow, refHigh, labTestName,
    labUnit, hr]
  norm_num

/-- The generated Glucose record for a drawn value of 65: below the
reference range (70, 100), flagged "Abnormal" (the spec's own end-to-end
scenario). -/
theorem genLabRecord_glucose_65_eval :
    genLabRecord "PT0001" "SITE01" 0 .glucose 65 =
      { patient_id := "PT0001", site_id := "SITE01", visit_date := 0,
        test_name := "Glucose", result_value := 65, unit := "mg/dL",
        reference_low := 70, reference_high := 100,
        normal_flag := "Abnormal" } := by
  have hr : pyRound (65 : ℚ) = 65 := by norm_num [pyRound]
  simp [genLabRecord, applyLabRounding, refLow, refHigh, labTestName,
    labUnit, hr]
  norm_num

/-- Claim C6, counterexample: a lab table holding a single Glucose result of
85 (flagged "Normal", so Glucose's abnormal count is zero) produces an
empty `lab_abnormal_rates` table — the inner merge against the
abnormal-subset value counts drops every test whose abnormal count is zero,
contradicting the claimed "including tests whose abnormal count is zero". -/
theorem c6_zero_abnormal_test_dropped :
    (genLabRecord "PT0001" "SITE01" 0 .glucose 85).normal_flag = "Normal" ∧
      (∃ r ∈ [genLabRecord "PT0001" "SITE01" 0 .glucose 85],
        r.test_name = "Glucose") ∧
      ¬ ∃ row ∈ labAbnormalRates [genLabRecord "PT0001" "SITE01" 0 .glucose 85],
          row.test_name = "Glucose" := by
  rw [genLabRecord_glucose_85_eval]
  refine ⟨rfl, ⟨_, List.mem_singleton.mpr rfl, rfl⟩, ?_⟩
  rintro ⟨row, hrow, -⟩
  have hempty : labAbnormalRates
      [{ patient_id := "PT0001", site_id := "SITE01", visit_date := 0,
         test_name := "Glucose", result_value := 85, unit := "mg/dL",
         reference_low := 70, reference_high := 100,
         normal_flag := "Normal" }] = [] := by
    decide
  rw [hempty] at hrow
  exact List.not_mem_nil row hrow

/-- Claim C6 (amended): for each lab test name with at least one abnormal
result, `lab_abnormal_rates` contains a row whose counts are that test's
abnormal and total row counts and whose rate is
`abnormal_count / total_count × 100`; tests whose abnormal count is zero
are dropped by the inner merge and get no row. -/
theorem c6_abnormal_rate_row (labs : List LabRecord) (t : String)
    (h : t ∈ abnormalKeys labs) :
    ∃ row ∈ labAbnormalRates labs,
      row.test_name = t ∧
        row.abnormal_count = (abnormalKeys labs).count t ∧
        row.total_count = (labs.map (fun r => r.test_name)).count t ∧
        row.abnormal_rate = ((abnormalKeys labs).count t : ℚ) /
          ((labs.map (fun r => r.test_name)).count t : ℚ) * 100 := by
  have hac : (t, (abnormalKeys labs).count t) ∈ abnormalCounts labs := by
    rw [abnormalCounts, countByN, List.mem_map]
    exact ⟨t, List.mem_dedup.mpr h, rfl⟩
  have htmem : t ∈ labs.map (fun r => r.test_name) := by
    rw [abnormalKeys, List.mem_map] at h
    obtain ⟨r, hr, hrt⟩ := h
    exact List.mem_map.mpr ⟨r, List.mem_of_mem_filter hr, hrt⟩
  have htc : (t, (labs.map (fun r => r.test_name)).count t) ∈ totalCounts labs := by
    rw [totalCounts, countByN, List.mem_map]
    exact ⟨t, List.mem_dedup.mpr htmem, rfl⟩
  refine ⟨{ test_name := t,
            abnormal_count := (abnormalKeys labs).count t,
            total_count := (labs.map (fun r => r.test_name)).count t,
            abnormal_rate := ((abnormalKeys labs).count t : ℚ) /
              ((labs.map (fun r => r.test_name)).count t : ℚ) * 100 },
    ?_, rfl, rfl, rfl, rfl⟩
  rw [labAbnormalRates, List.mem_flatMap]
  refine ⟨(t, (abnormalKeys labs).count t), hac, ?_⟩
  rw [List.mem_map]
  exact ⟨(t, (labs.map (fun r => r.test_name)).count t),
    List.mem_filter.mpr ⟨htc, by simp⟩, rfl⟩

/-- Claim C6 witness: a single Glucose result of 65 is flagged "Abnormal",
and the rate table contains the Glucose row with rate 1/1 × 100. -/
theorem c6_abnormal_rate_row_witness :
    "Glucose" ∈ abnormalKeys [genLabRecord "PT0001" "SITE01" 0 .glucose 65] ∧
      ∃ row ∈ labAbnormalRates [genLabRecord "PT0001" "SITE01" 0 .glucose 65],
        row.test_name = "Glucose" ∧
          row.abnormal_count =
            (abnormalKeys [genLabRecord "PT0001" "SITE01" 0 .glucose 65]).count
              "Glucose" ∧
          row.total_count =
            (([genLabRecord "PT0001" "SITE01" 0 .glucose 65]).map
              (fun r => r.test_name)).count "Glucose" ∧
          row.abnormal_rate =
            ((abnormalKeys [genLabRecord "PT0001" "SITE01" 0 .glucose 65]).count
              "Glucose" : ℚ) /
              ((([genLabRecord "PT0001" "SITE01" 0 .glucose 65]).map
                (fun r => r.test_name)).count "Glucose" : ℚ) * 100 :=
  ⟨by rw [genLabRecord_glucose_65_eval]; decide,
    c6_abnormal_rate_row [genLabRecord "PT0001" "SITE01" 0 .glucose 65]
      "Glucose" (by rw [genLabRecord_glucose_65_eval]; decide)⟩

/-! ### Summary Reporter: phase delays
(`descriptive_analytics.py` lines 414-422) -/

/-- One row of the timeline delay table. -/
structure DelayRow where
  phase : String
  start_delay : Option ℤ
  end_delay : Option ℤ
deriving DecidableEq

/-- `fillna(0)` on a nullable integer column entry. -/
def fillnaZero (o : Option ℤ) : Option ℤ := some (o.getD 0)

/-- The delay computation: `(actual − planned).dt.days` propagates null
(NaT) actual dates, then `fillna(0)` replaces the nulls with zero. -/
def computeDelays (r : PhaseRow) : DelayRow :=
  { phase := r.phase
    start_delay := fillnaZero (r.actual_start_date.map
      (fun a => a - r.planned_start_date))
    end_delay := fillnaZero (r.actual_end_date.map
      (fun a => a - r.planned_end_date)) }

/-- The delay columns over the whole timeline table. -/
def processTimeline (rows : List PhaseRow) : List DelayRow :=
  rows.map computeDelays

/-- Claim C8: every timeline row gets non-null delay columns, and a phase
with an unset actual start or end date gets delay zero rather than being
excluded. -/
theorem c8_delays_never_null (rows : List PhaseRow) (r : PhaseRow)
    (hr : r ∈ rows) :
    computeDelays r ∈ processTimeline rows ∧
      (computeDelays r).start_delay.isSome = true ∧
      (computeDelays r).end_delay.isSome = true ∧
      (r.actual_start_date = none → (computeDelays r).start_delay = some 0) ∧
      (r.actual_end_date = none → (computeDelays r).end_delay = some 0) := by
  refine ⟨List.mem_map.mpr ⟨r, hr, rfl⟩, rfl, rfl, ?_, ?_⟩
  · intro h
    simp [computeDelays, fillnaZero, h]
  · intro h
    simp [computeDelays, fillnaZero, h]

/-- Claim C8 witness: a planned-only phase (both actual dates unset) yields
`start_delay = end_delay = some 0`. -/
theorem c8_delays_never_null_witness :
    computeDelays
        { phase := "Final Report", planned_start_date := 100,
          planned_end_date := 160, actual_start_date := none,
          actual_end_date := none, status := "Planned" } ∈
      processTimeline
        [{ phase := "Final Report", planned_start_date := 100,
           planned_end_date := 160, actual_start_date := none,
           actual_end_date := none, status := "Planned" }] ∧
      (computeDelays
        { phase := "Final Report", planned_start_date := 100,
          planned_end_date := 160, actual_start_date := none,
          actual_end_date := none, status := "Planned" }).start_delay =
        some 0 ∧
      (computeDelays
        { phase := "Final Report", planned_start_date := 100,
          planned_end_date := 160, actual_start_date := none,
          actual_end_date := none, status := "Planned" }).end_delay =
        some 0 := by
  have h := c8_delays_never_null
    [{ phase := "Final Report", planned_start_date := 100,
       planned_end_date := 160, actual_start_date := none,
       actual_end_date := none, status := "Planned" }]
    { phase := "Final Report", planned_start_date := 100,
      planned_end_date := 160, actual_start_date := none,
      actual_end_date := none, status := "Planned" }
    (List.mem_singleton.mpr rfl)
  exact ⟨h.1, h.2.2.2.1 rfl, h.2.2.2.2 rfl⟩


/-! ### Store-handle lifecycle (`descriptive_analytics.py` lines 31-41,
`create_sample_data.py` lines 399-409) -/

/-- The observable exit state of a pipeline stage: whether the SQLite
handle is still open and whether the stage terminated by a raised
exception. -/
structure StageExit where
  connOpen : Bool
  raised : Bool
deriving DecidableEq

/-- The sequence of store operations between `connect` and `close`
(five `pd.read_sql` or `to_sql` calls): the first failing operation raises
and the remaining ones never run. -/
def runStoreOps : List Bool → Bool
  | [] => true
  | true :: rest => runStoreOps rest
  | false :: _ => false

/-- A pipeline stage as written in the source: `conn = sqlite3.connect(...)`,
the store operations in order, then `conn.close()` as a plain statement —
no `try/finally` and no context manager, so an exception in any operation
propagates past the `close()` call. -/
def stageRun (opsOk : List Bool) : StageExit :=
  if runStoreOps opsOk then { connOpen := false, raised := false }
  else { connOpen := true, raised := true }

/-- Claim C9: the code contradicts the claim. On the all-success path the
handle is closed, but when the first read fails the stage terminates with
the exception raised and the handle still open — `conn.close()` is
unreachable on every early-failure path. -/
theorem c9_conn_left_open_on_failure :
    (stageRun [true, true, true, true, true]).connOpen = false ∧
      (stageRun [false, true, true, true, true]).raised = true ∧
      (stageRun [false, true, true, true, true]).connOpen = true := by
  decide

/-! ### Model Trainer preprocessing (`predictive_analytics.py`) -/

/-- Imputation strategies appearing in the source (`SimpleImputer`). -/
inductive ImputeKind : Type
  | median | mostFrequent | constantFill
deriving DecidableEq

/-- Categorical encodings appearing in the source: `OneHotEncoder` with
`handle_unknown='ignore'` maps unseen categories to the all-zero indicator
vector at inference time. -/
inductive EncodeKind : Type
  | onehotIgnoreUnknown | getDummies
deriving DecidableEq

/-- The preprocessing half of a fitted pipeline: how numeric and
categorical feature columns are transformed before the estimator. -/
structure PreprocSpec where
  numericImpute : ImputeKind
  numericScaled : Bool
  catImpute : ImputeKind
  catEncode : EncodeKind
deriving DecidableEq

/-- The estimator fitted for a task. -/
inductive EstimatorKind : Type
  | randomForestClassifier | logisticRegression
  | randomForestRegressor | linearRegression
deriving DecidableEq

/-- A prediction task's fitted pipeline: an optional preprocessing
`ColumnTransformer` and the estimator. -/
structure TaskPipeline where
  preprocessor : Option PreprocSpec
  estimator : EstimatorKind
deriving DecidableEq

/-- The `ColumnTransformer` built at lines 132-146 (and repeated at
257-271 and 350-364): numeric median imputation plus `StandardScaler`,
categorical constant imputation plus `OneHotEncoder(handle_unknown='ignore')`. -/
def standardPreprocessor : PreprocSpec :=
  { numericImpute := .median
    numericScaled := true
    catImpute := .constantFill
    catEncode := .onehotIgnoreUnknown }

/-- Task 1, patient dropout (lines 149-152): the standard preprocessor
feeding a `RandomForestClassifier`. -/
def dropoutModel : TaskPipeline :=
  { preprocessor := some standardPreprocessor
    estimator := .randomForestClassifier }

/-- Task 2, severe adverse-event risk (lines 274-277): the standard
preprocessor feeding a `LogisticRegression`. -/
def aeRiskModel : TaskPipeline :=
  { preprocessor := some standardPreprocessor
    estimator := .logisticRegression }

/-- Task 3, site retention-rate regression (lines 367-370): the standard
preprocessor feeding a `RandomForestRegressor`. -/
def siteModel : TaskPipeline :=
  { preprocessor := some standardPreprocessor
    estimator := .randomForestRegressor }

/-- Task 4, phase-duration regression (lines 461-466):
`duration_model = LinearRegression()` fitted directly on the manually
assembled feature frame (`pd.get_dummies` one-hot columns, no imputer, no
scaler, no `ColumnTransformer`). -/
def durationModel : TaskPipeline :=
  { preprocessor := none
    estimator := .linearRegression }

/-- Modelled from the spec: the preprocessing contract claimed for every
task — numeric features median-imputed then standardized, categorical
features imputed (most-frequent or constant) then one-hot encoded with
unknown categories mapped to the all-zero vector. -/
def specPreprocContract (t : TaskPipeline) : Prop :=
  ∃ p, t.preprocessor = some p ∧
    p.numericImpute = .median ∧
    p.numericScaled = true ∧
    (p.catImpute = .mostFrequent ∨ p.catImpute = .constantFill) ∧
    p.catEncode = .onehotIgnoreUnknown

/-- Claim C7, counterexample: the phase-duration task does not satisfy the
claimed preprocessing contract — it fits a bare `LinearRegression` with no
imputation, no standardization and no `ColumnTransformer`. -/
theorem c7_duration_task_unpreprocessed : ¬ specPreprocContract durationModel := by
  rintro ⟨p, hp, -⟩
  simp [durationModel] at hp

/-- Claim C7 (amended): the dropout, adverse-event-risk and site-retention
tasks each preprocess as claimed; the phase-duration task instead fits a
plain `LinearRegression` on manually one-hot-encoded phase features with
no imputation or standardization. -/
theorem c7_three_tasks_preprocessed :
    specPreprocContract dropoutModel ∧
      specPreprocContract aeRiskModel ∧
      specPreprocContract siteModel ∧
      durationModel.preprocessor = none ∧
      durationModel.estimator = .linearRegression :=
  ⟨⟨standardPreprocessor, rfl, rfl, rfl, Or.inr rfl, rfl⟩,
    ⟨standardPreprocessor, rfl, rfl, rfl, Or.inr rfl, rfl⟩,
    ⟨standardPreprocessor, rfl, rfl, rfl, Or.inr rfl, rfl⟩,
    rfl, rfl⟩

